import Mathlib

/-!
Shallow embedding of `pkg/automationconfig/automation_config_builder.go`
(MongoDB Kubernetes operator): the `Builder` accumulator, its setters, and
the terminal `Build` operation that assembles an `AutomationConfig` document
and decides the version bump by comparing canonical serializations.

The data-model types (`AutomationConfig`, `Process`, `ReplicaSetMember`,
`ReplicaSet`, `Auth`, `SSL`, `MongoDbVersionConfig`, `Options`) and the
helper constructors `newProcess`, `newReplicaSetMember`, `DisabledAuth`
live in a sibling file of the same Go package that is not part of the
given sources; they are modelled from the spec (sections 3 and 6).
The builder file itself (`Builder`, the setters, `isTLSEnabled`,
`AddVersion`, `Build`, `toHostName`, `withFCV`, `withTLS`) is translated
from the source.
-/

namespace AutomationConfigModel

/-- From the source: `type Topology string`. -/
abbrev Topology := String

/-- From the source: `ReplicaSetTopology Topology = "ReplicaSet"`. -/
def ReplicaSetTopology : Topology := "ReplicaSet"

/-- Modelled from the spec: SSL mode is a string-typed enumeration; the
builder only ever compares it against the disabled constant. -/
abbrev SSLMode := String

/-- Modelled from the spec: the "disabled" SSL mode constant that
`isTLSEnabled` compares against. -/
def SSLModeDisabled : SSLMode := "disabled"

/-- Modelled from the spec: the per-process TLS block set by `withTLS`:
mode, CA file, PEM key file and the allow-connections-without-certificate
flag (spec section 4.2). -/
structure MongoDBSSL where
  mode : SSLMode
  caFile : String
  pemKeyFile : String
  allowConnectionsWithoutCertificate : Bool
deriving DecidableEq, Repr

/-- Modelled from the spec: the network arguments of a process
(`process.Args26.Net.SSL`); `none` is the Go zero value, meaning no TLS
fields are set on the process. -/
structure Net where
  ssl : Option MongoDBSSL
deriving DecidableEq, Repr

/-- Modelled from the spec: the `args2_6` option block of a process, of
which the builder only touches the network/TLS arguments. -/
structure Args26 where
  net : Net
deriving DecidableEq, Repr

/-- Modelled from the spec (section 3, "Process"): process name
(`<name>-<index>`), fully-qualified hostname, MongoDB version, logical
replica-set name, feature-compatibility version and network/TLS
arguments. -/
structure Process where
  name : String
  hostName : String
  version : String
  replSetName : String
  featureCompatibilityVersion : String
  args26 : Args26
deriving DecidableEq, Repr

/-- Modelled from the spec: `newProcess(name, hostName, version,
replSetName, opts...)` constructs a process with the four given fields,
zero-valued option blocks, and then applies the functional options in
order. -/
def newProcess (name hostName version replSetName : String)
    (opts : List (Process → Process)) : Process :=
  opts.foldl (fun p f => f p)
    { name := name
      hostName := hostName
      version := version
      replSetName := replSetName
      featureCompatibilityVersion := ""
      args26 := { net := { ssl := none } } }

/-- Modelled from the spec (section 3, "ReplicaSetMember"): pairs a
process reference (its name, the host field) with a numeric member id. -/
structure ReplicaSetMember where
  id : Nat
  host : String
deriving DecidableEq, Repr

/-- Modelled from the spec: `newReplicaSetMember(p, id)` builds the
membership record of process `p` with member id `id`. -/
def newReplicaSetMember (p : Process) (id : Nat) : ReplicaSetMember :=
  { id := id, host := p.name }

/-- Modelled from the spec (section 3, "ReplicaSet"): id, ordered member
sequence, protocol version. -/
structure ReplicaSet where
  id : String
  members : List ReplicaSetMember
  protocolVersion : String
deriving DecidableEq, Repr

/-- Modelled from the spec (section 3, "Auth"): opaque to the builder;
its only contract is deterministic canonical serialization, so it is
modelled by its canonical serialized form. -/
abbrev Auth := String

/-- Modelled from the spec (section 4.3): the canonical "disabled" Auth
baseline handed to the enabler. -/
def DisabledAuth : Auth := "disabled"

/-- Modelled from the spec (section 3, "SSL"): client-certificate mode
and CA file path; empty string is the Go zero value for an unset path. -/
structure SSL where
  clientCertificateMode : String
  caFilePath : String
deriving DecidableEq, Repr

/-- Modelled from the spec: the client-certificate mode constant
"Optional" placed in every built document. -/
def ClientCertificateModeOptional : String := "Optional"

/-- Modelled from the spec (section 3, "MongoDbVersionConfig"): one build
variant of a catalog entry carrying its module list; `none` models a Go
nil slice (serialized as null), `some []` an explicitly empty one. -/
structure BuildVariant where
  modules : Option (List String)
deriving DecidableEq, Repr

/-- Modelled from the spec: a catalog entry describing one installable
MongoDB version and its build variants. -/
structure MongoDbVersionConfig where
  name : String
  builds : List BuildVariant
deriving DecidableEq, Repr

/-- Modelled from the spec (section 4.4): global options holding the
fixed download-base path. -/
structure Options where
  downloadBase : String
deriving DecidableEq, Repr

/-- Modelled from the spec (sections 3 and 6): the root document —
version counter, processes, replica sets, version catalog, options,
auth, SSL. -/
structure AutomationConfig where
  version : Int
  processes : List Process
  replicaSets : List ReplicaSet
  versions : List MongoDbVersionConfig
  options : Options
  auth : Auth
  ssl : SSL
deriving DecidableEq, Repr

/-- From the source: the `Enabler` interface, one operation
`Enable(auth Auth) (Auth, error)`; the Go error is modelled as a
string. -/
abbrev Enabler := Auth → Except String Auth

/-- From the source: the `Builder` struct. The Go field `members int` is modelled
as `Nat` (a negative count panics in Go at `make([]string, b.members)`
before any document is produced, so only nonnegative counts reach the
assembly). The `enabler` field is total here: Go leaves it nil until
`SetEnabler`, and calling `Build` with a nil enabler panics rather than
returning, which is outside the model. -/
structure Builder where
  enabler : Enabler
  processes : List Process
  replicaSets : List ReplicaSet
  version : Int
  auth : Auth
  members : Nat
  domain : String
  name : String
  fcv : String
  topology : Topology
  mongodbVersion : String
  previousAC : AutomationConfig
  tlsCAFile : String
  tlsCertAndKeyFile : String
  tlsMode : SSLMode
  versions : List MongoDbVersionConfig

/-- From the source: `SetEnabler`. -/
def Builder.SetEnabler (b : Builder) (enabler : Enabler) : Builder :=
  { b with enabler := enabler }

/-- From the source: `SetTopology`. -/
def Builder.SetTopology (b : Builder) (topology : Topology) : Builder :=
  { b with topology := topology }

/-- From the source: `SetMembers`. -/
def Builder.SetMembers (b : Builder) (members : Nat) : Builder :=
  { b with members := members }

/-- From the source: `SetDomain`. -/
def Builder.SetDomain (b : Builder) (domain : String) : Builder :=
  { b with domain := domain }

/-- From the source: `SetName`. -/
def Builder.SetName (b : Builder) (name : String) : Builder :=
  { b with name := name }

/-- From the source: `SetFCV`. -/
def Builder.SetFCV (b : Builder) (fcv : String) : Builder :=
  { b with fcv := fcv }

/-- From the source: `SetTLS` sets the three TLS facets atomically. -/
def Builder.SetTLS (b : Builder) (caFile certAndKeyFile : String) (mode : SSLMode) : Builder :=
  { b with tlsCAFile := caFile, tlsCertAndKeyFile := certAndKeyFile, tlsMode := mode }

/-- From the source: `isTLSEnabled` — TLS is enabled only when the CA
file and the cert-and-key file are both non-empty and the mode is not
disabled. -/
def Builder.isTLSEnabled (b : Builder) : Bool :=
  b.tlsCAFile != "" && b.tlsCertAndKeyFile != "" && b.tlsMode != SSLModeDisabled

/-- From the source: `AddVersion` — every build variant whose module
slice is nil is replaced by an empty slice, then the entry is appended
to the catalog. -/
def Builder.AddVersion (b : Builder) (version : MongoDbVersionConfig) : Builder :=
  { b with versions := b.versions ++
      [{ version with builds := version.builds.map (fun bv =>
            match bv.modules with
            | none => { bv with modules := some [] }
            | some _ => bv) }] }

/-- From the source: `SetMongoDBVersion`. -/
def Builder.SetMongoDBVersion (b : Builder) (version : String) : Builder :=
  { b with mongodbVersion := version }

/-- From the source: `SetPreviousAutomationConfig`. -/
def Builder.SetPreviousAutomationConfig (b : Builder) (previousAC : AutomationConfig) : Builder :=
  { b with previousAC := previousAC }

/-- From the source: `toHostName(name, index)` = `"<name>-<index>"`
(`fmt.Sprintf("%s-%d", name, index)`). -/
def toHostName (name : String) (index : Nat) : String :=
  name ++ "-" ++ toString index

/-- From the source: the functional option `withFCV` sets the
feature-compatibility version of the process. -/
def withFCV (fcv : String) : Process → Process :=
  fun process => { process with featureCompatibilityVersion := fcv }

/-- From the source: the functional option `withTLS` sets the TLS
network arguments of the process with allow-connections-without-certificate fixed
to true. -/
def withTLS (caFile tlsKeyFile : String) (mode : SSLMode) : Process → Process :=
  fun process =>
    let sslBlock : MongoDBSSL :=
      { mode := mode
        caFile := caFile
        pemKeyFile := tlsKeyFile
        allowConnectionsWithoutCertificate := true }
    { process with args26 := { net := { ssl := some sslBlock } } }

/-! ### Canonical serialization

`Build` compares the previous and current document via `json.Marshal`.
The struct tags live in the data-model file that is not part of the
given sources, so the encoding is modelled from the spec (section 6,
"Canonical serialization"): deterministic field order, omit-if-empty for
fields so marked, a nil module slice emitted as null and an explicitly
empty one as `[]`. -/

/-- Canonical serialization helper: a JSON string literal. -/
def jstr (s : String) : String := "\"" ++ s ++ "\""

/-- Canonical serialization helper: a JSON array from already-rendered
elements. -/
def jarr (xs : List String) : String := "[" ++ String.intercalate "," xs ++ "]"

/-- Canonical serialization helper: a JSON object from already-rendered
fields, in the given (fixed) order. -/
def jobj (fields : List (String × String)) : String :=
  "\x7b" ++ String.intercalate "," (fields.map (fun f => jstr f.1 ++ ":" ++ f.2)) ++ "\x7d"

/-- Modelled from the spec: canonical serialization of the TLS block of
a process. -/
def serializeMongoDBSSL (s : MongoDBSSL) : String :=
  jobj [("mode", jstr s.mode), ("CAFile", jstr s.caFile), ("PEMKeyFile", jstr s.pemKeyFile),
        ("allowConnectionsWithoutCertificate",
         if s.allowConnectionsWithoutCertificate then "true" else "false")]

/-- Modelled from the spec: canonical serialization of the network
arguments; an unset TLS block is omitted (omit-if-empty). -/
def serializeNet (n : Net) : String :=
  match n.ssl with
  | none => jobj []
  | some s => jobj [("ssl", serializeMongoDBSSL s)]

/-- Modelled from the spec: canonical serialization of a process. -/
def serializeProcess (p : Process) : String :=
  jobj [("name", jstr p.name), ("hostname", jstr p.hostName),
        ("version", jstr p.version), ("replSetName", jstr p.replSetName),
        ("featureCompatibilityVersion", jstr p.featureCompatibilityVersion),
        ("args2_6", jobj [("net", serializeNet p.args26.net)])]

/-- Modelled from the spec: canonical serialization of a replica-set
member. -/
def serializeMember (m : ReplicaSetMember) : String :=
  jobj [("_id", toString m.id), ("host", jstr m.host)]

/-- Modelled from the spec: canonical serialization of a replica set. -/
def serializeReplicaSet (rs : ReplicaSet) : String :=
  jobj [("_id", jstr rs.id), ("members", jarr (rs.members.map serializeMember)),
        ("protocolVersion", jstr rs.protocolVersion)]

/-- Modelled from the spec: canonical serialization of one build
variant — a nil module slice renders as null, an explicitly empty one as
an empty array (the distinction is load-bearing for version diffing). -/
def serializeBuildVariant (bv : BuildVariant) : String :=
  jobj [("modules",
         (match bv.modules with
          | none => "null"
          | some ms => jarr (ms.map jstr) : String))]

/-- Modelled from the spec: canonical serialization of a catalog
entry. -/
def serializeVersionConfig (v : MongoDbVersionConfig) : String :=
  jobj [("name", jstr v.name), ("builds", jarr (v.builds.map serializeBuildVariant))]

/-- Modelled from the spec: canonical serialization of the SSL block;
an empty CA file path is omitted (omit-if-empty). -/
def serializeSSL (s : SSL) : String :=
  jobj (("clientCertificateMode", jstr s.clientCertificateMode) ::
        (if s.caFilePath = "" then [] else [("CAFilePath", jstr s.caFilePath)]))

/-- Modelled from the spec: canonical serialization of the root
document, in the fixed field order of the document layout (section 6):
version, processes, replica sets, version catalog, options, auth, SSL.
The opaque auth sub-document is already held in canonical serialized
form. -/
def serializeAC (ac : AutomationConfig) : String :=
  jobj [("version", toString ac.version),
        ("processes", jarr (ac.processes.map serializeProcess)),
        ("replicaSets", jarr (ac.replicaSets.map serializeReplicaSet)),
        ("mongoDbVersions", jarr (ac.versions.map serializeVersionConfig)),
        ("options", jobj [("downloadBase", jstr ac.options.downloadBase)]),
        ("auth", ac.auth),
        ("ssl", serializeSSL ac.ssl)]

/-! ### Build -/

/-- From the source (`Build`, first loop): the derived hostname list,
`hostnames[i] = fmt.Sprintf("%s-%d.%s", b.name, i, b.domain)` for
`i` in `[0, members)`. -/
def Builder.hostnames (b : Builder) : List String :=
  (List.range b.members).map (fun i => b.name ++ "-" ++ toString i ++ "." ++ b.domain)

/-- From the source (`Build`, second loop): the functional options
applied to each fresh process — the feature-compatibility version
always, the TLS block only when `isTLSEnabled` holds. -/
def Builder.processOpts (b : Builder) : List (Process → Process) :=
  [withFCV b.fcv] ++
    (if b.isTLSEnabled then [withTLS b.tlsCAFile b.tlsCertAndKeyFile b.tlsMode] else [])

/-- From the source (`Build`, second loop): `processes[i] =
newProcess(toHostName(b.name, i), hostnames[i], b.mongodbVersion,
b.name, opts...)`; the Go `for i, h := range hostnames` is the
enumeration of the hostname list. -/
def Builder.derivedProcesses (b : Builder) : List Process :=
  b.hostnames.enum.map (fun p =>
    newProcess (toHostName b.name p.1) p.2 b.mongodbVersion b.name b.processOpts)

/-- From the source (`Build`, second loop): `members[i] =
newReplicaSetMember(processes[i], i)`. -/
def Builder.derivedMembers (b : Builder) : List ReplicaSetMember :=
  b.derivedProcesses.enum.map (fun p => newReplicaSetMember p.2 p.1)

/-- From the source (`Build`, document assembly): the `currentAc`
literal — version carried over from the previous document, the derived
processes, the single replica set (id = name, protocol version "1"),
the accumulated catalog, the fixed options, the auth from the enabler, and the
SSL block whose CA file path is set only when TLS is enabled (the
source sets it in a separate `if` right after the literal). -/
def Builder.assembleAC (b : Builder) (auth : Auth) : AutomationConfig :=
  { version := b.previousAC.version
    processes := b.derivedProcesses
    replicaSets := [{ id := b.name, members := b.derivedMembers, protocolVersion := "1" }]
    versions := b.versions
    options := { downloadBase := "/var/lib/mongodb-mms-automation" }
    auth := auth
    ssl := { clientCertificateMode := ClientCertificateModeOptional
             caFilePath := if b.isTLSEnabled then b.tlsCAFile else "" } }

/-- From the source: `Build` — derive processes and members, delegate to
the enabler (an error aborts with no document), assemble `currentAc`,
serialize the previous and the current document, and bump the version
by one exactly when the two serializations differ. `json.Marshal` never
fails on these types, so the serialization error branches of the source
are unreachable in the model. -/
def Builder.Build (b : Builder) : Except String AutomationConfig :=
  match b.enabler DisabledAuth with
  | Except.error e => Except.error e
  | Except.ok auth =>
    let currentAc := b.assembleAC auth
    let newAcBytes := serializeAC b.previousAC
    let currentAcBytes := serializeAC currentAc
    if newAcBytes ≠ currentAcBytes then
      Except.ok { currentAc with version := currentAc.version + 1 }
    else
      Except.ok currentAc

/-! ### Basic lemmas about the derivation pipeline -/

theorem enumFrom_map_fst_snd (k : Nat) (l : List α) (f : α → β) :
    (l.map f).enumFrom k = (l.enumFrom k).map (fun p => (p.1, f p.2)) := by
  induction l generalizing k with
  | nil => rfl
  | cons a t ih => simp [List.enumFrom, ih]

theorem enum_range_self (n : Nat) :
    (List.range n).enum = (List.range n).map (fun i => (i, i)) := by
  have h := List.enum_eq_zip_range (List.range n)
  simp at h
  rw [h]
  induction (List.range n) with
  | nil => rfl
  | cons a t ih => simp [List.zip, ih]

theorem enum_range_map (n : Nat) (f : Nat → α) :
    ((List.range n).map f).enum = (List.range n).map (fun i => (i, f i)) := by
  show ((List.range n).map f).enumFrom 0 = _
  rw [enumFrom_map_fst_snd]
  show (List.range n).enum.map _ = _
  rw [enum_range_self, List.map_map]
  rfl

/-- The TLS-enablement predicate, spelled out as the three spec
conditions. -/
theorem isTLSEnabled_iff (b : Builder) :
    b.isTLSEnabled = true ↔
      (b.tlsCAFile ≠ "" ∧ b.tlsCertAndKeyFile ≠ "" ∧ b.tlsMode ≠ SSLModeDisabled) := by
  simp [Builder.isTLSEnabled, bne_iff_ne, and_assoc]

/-- Evaluating `newProcess` on the options `Build` assembles: the
feature-compatibility version is applied unconditionally, the TLS block
exactly when the predicate holds. -/
theorem newProcess_processOpts (b : Builder) (nm hn : String) :
    newProcess nm hn b.mongodbVersion b.name b.processOpts =
      { name := nm
        hostName := hn
        version := b.mongodbVersion
        replSetName := b.name
        featureCompatibilityVersion := b.fcv
        args26 := { net := { ssl := if b.isTLSEnabled then some ⟨b.tlsMode, b.tlsCAFile, b.tlsCertAndKeyFile, true⟩ else none } } } := by
  unfold newProcess Builder.processOpts withFCV withTLS
  cases h : b.isTLSEnabled <;> simp [h]

/-- The derived process list, indexed pointwise over `[0, members)`. -/
theorem derivedProcesses_eq (b : Builder) :
    b.derivedProcesses = (List.range b.members).map (fun i =>
      newProcess (toHostName b.name i) (b.name ++ "-" ++ toString i ++ "." ++ b.domain)
        b.mongodbVersion b.name b.processOpts) := by
  unfold Builder.derivedProcesses Builder.hostnames
  rw [enum_range_map, List.map_map]
  rfl

/-- The derived member list, indexed pointwise over `[0, members)`. -/
theorem derivedMembers_eq (b : Builder) :
    b.derivedMembers = (List.range b.members).map (fun i =>
      newReplicaSetMember
        (newProcess (toHostName b.name i) (b.name ++ "-" ++ toString i ++ "." ++ b.domain)
          b.mongodbVersion b.name b.processOpts) i) := by
  unfold Builder.derivedMembers
  rw [derivedProcesses_eq, enum_range_map, List.map_map]
  rfl

/-- Characterization of a successful `Build`: with a succeeding enabler
the result is the assembled document, its version bumped by one exactly
when the canonical serializations differ. -/
theorem build_eq_of_enabler_ok (b : Builder) (auth : Auth)
    (h : b.enabler DisabledAuth = Except.ok auth) :
    b.Build =
      (if serializeAC b.previousAC ≠ serializeAC (b.assembleAC auth) then
        Except.ok { b.assembleAC auth with version := (b.assembleAC auth).version + 1 }
      else Except.ok (b.assembleAC auth)) := by
  unfold Builder.Build
  rw [h]

/-- Field-wise description of any successfully built document: processes
and members are the derived ones, there is a single replica set, the
catalog and options are passed through, auth comes from the enabler and
the SSL block is gated on the TLS predicate. -/
theorem build_ok_fields (b : Builder) (ac : AutomationConfig)
    (hac : b.Build = Except.ok ac) :
    ac.processes = b.derivedProcesses ∧
    ac.replicaSets = [{ id := b.name, members := b.derivedMembers, protocolVersion := "1" }] ∧
    ac.versions = b.versions ∧
    ac.options = { downloadBase := "/var/lib/mongodb-mms-automation" } ∧
    (∃ auth, b.enabler DisabledAuth = Except.ok auth ∧ ac.auth = auth) ∧
    ac.ssl = { clientCertificateMode := ClientCertificateModeOptional
               caFilePath := if b.isTLSEnabled then b.tlsCAFile else "" } := by
  cases henb : b.enabler DisabledAuth with
  | error e =>
    unfold Builder.Build at hac
    rw [henb] at hac
    cases hac
  | ok auth =>
    rw [build_eq_of_enabler_ok b auth henb] at hac
    split at hac <;> cases hac <;>
      exact ⟨rfl, rfl, rfl, rfl, ⟨auth, rfl, rfl⟩, rfl⟩

/-! ### Concrete fixtures used by the witnesses -/

/-- An enabler that succeeds and returns its baseline unchanged. -/
def okEnabler : Enabler := fun a => Except.ok a

/-- The zero-valued automation config, used as a trivial previous
document. -/
def emptyAC : AutomationConfig :=
  { version := 0
    processes := []
    replicaSets := []
    versions := []
    options := { downloadBase := "" }
    auth := ""
    ssl := { clientCertificateMode := "", caFilePath := "" } }

/-- A small concrete builder state: two members, no TLS. -/
def testBuilder : Builder :=
  { enabler := okEnabler
    processes := []
    replicaSets := []
    version := 0
    auth := ""
    members := 2
    domain := "svc.local"
    name := "rs0"
    fcv := "4.0"
    topology := ReplicaSetTopology
    mongodbVersion := "4.2.0"
    previousAC := emptyAC
    tlsCAFile := ""
    tlsCertAndKeyFile := ""
    tlsMode := ""
    versions := [] }

/-- The document built from `testBuilder`. -/
def testAC : AutomationConfig := (testBuilder.Build).toOption.getD emptyAC

/-- The same builder state with full TLS configuration. -/
def tlsBuilder : Builder :=
  { testBuilder with
      tlsCAFile := "/ca.pem"
      tlsCertAndKeyFile := "/server.pem"
      tlsMode := "requireSSL" }

/-- The document built from `tlsBuilder`. -/
def tlsAC : AutomationConfig := (tlsBuilder.Build).toOption.getD emptyAC

/-- The first process of the TLS document. -/
def tlsP0 : Process := tlsAC.processes.getD 0
  { name := "", hostName := "", version := "", replSetName := ""
    featureCompatibilityVersion := "", args26 := { net := { ssl := none } } }

/-! ### The claims -/

/-- C1: for every builder state with a succeeding enabler, the Version of
the document returned by Build equals previousAC.Version + 1 when the
canonical serialization of the newly assembled document (whose Version
field is previousAC.Version, as `assembleAC` carries it over) differs
from the canonical serialization of the previous document, and equals
previousAC.Version unchanged otherwise; the if-then-else exhausts the
possibilities, so the version never changes by any other amount. -/
theorem build_version_bump_iff (b : Builder) (auth : Auth)
    (h : b.enabler DisabledAuth = Except.ok auth) :
    (b.Build).toOption.map AutomationConfig.version =
      some (if serializeAC (b.assembleAC auth) = serializeAC b.previousAC
            then b.previousAC.version
            else b.previousAC.version + 1) := by
  rw [build_eq_of_enabler_ok b auth h]
  by_cases hc : serializeAC (b.assembleAC auth) = serializeAC b.previousAC
  · rw [if_pos hc, if_neg (by simp [hc])]
    rfl
  · rw [if_neg hc, if_pos (fun he => hc he.symm)]
    rfl

/-- C1 witness: the characterization evaluated on the concrete
`testBuilder`. -/
theorem build_version_bump_iff_witness :
    (testBuilder.Build).toOption.map AutomationConfig.version =
      some (if serializeAC (testBuilder.assembleAC DisabledAuth) = serializeAC testBuilder.previousAC
            then testBuilder.previousAC.version
            else testBuilder.previousAC.version + 1) :=
  build_version_bump_iff testBuilder DisabledAuth rfl

/-- C2: Build is idempotent through the previous-config channel — if
Build with previous = X returns Y, then Build on the same builder with
previous replaced by Y (same enabler result, all other fields identical)
returns exactly Y, so in particular the version is unchanged and the
document is structurally identical. -/
theorem build_idempotent (b : Builder) (auth : Auth) (y : AutomationConfig)
    (h : b.enabler DisabledAuth = Except.ok auth)
    (hy : b.Build = Except.ok y) :
    (b.SetPreviousAutomationConfig y).Build = Except.ok y := by
  have h2 : (b.SetPreviousAutomationConfig y).enabler DisabledAuth = Except.ok auth := h
  rw [build_eq_of_enabler_ok b auth h] at hy
  rw [build_eq_of_enabler_ok _ auth h2]
  by_cases hc : serializeAC b.previousAC = serializeAC (b.assembleAC auth)
  · rw [if_neg (by simp [hc])] at hy
    cases hy
    show (if serializeAC (b.assembleAC auth) ≠ serializeAC (b.assembleAC auth) then _ else _) = _
    rw [if_neg (by simp)]
    rfl
  · rw [if_pos hc] at hy
    cases hy
    show (if serializeAC { b.assembleAC auth with version := (b.assembleAC auth).version + 1 } ≠
            serializeAC { b.assembleAC auth with version := (b.assembleAC auth).version + 1 }
          then _ else _) = _
    rw [if_neg (by simp)]
    rfl

/-- C2 witness: feeding the output of `testBuilder.Build` back in as the
previous document reproduces it exactly. -/
theorem build_idempotent_witness :
    (testBuilder.SetPreviousAutomationConfig testAC).Build = Except.ok testAC :=
  build_idempotent testBuilder DisabledAuth testAC rfl rfl

/-- C5: when the injected enabler fails on the disabled-auth baseline,
Build surfaces that error unchanged and produces no document (the Go
pair `(AutomationConfig{}, err)` with its zero-valued first component is
the `Except.error` of the model). -/
theorem build_enabler_error (b : Builder) (e : String)
    (h : b.enabler DisabledAuth = Except.error e) :
    b.Build = Except.error e := by
  unfold Builder.Build
  rw [h]

/-- C5 witness: a builder whose enabler always fails propagates the
error. -/
theorem build_enabler_error_witness :
    ({ testBuilder with enabler := fun _ => Except.error "boom" } : Builder).Build =
      Except.error "boom" :=
  build_enabler_error { testBuilder with enabler := fun _ => Except.error "boom" } "boom" rfl

/-- C3: in every built document, every process carries the TLS network
arguments exactly when the three conditions (CA file non-empty,
cert-and-key file non-empty, mode not disabled) all hold; the populated
block is the configured mode, CA file and key file with
allow-connections-without-certificate true, and under any other
combination no TLS fields are set. -/
theorem build_tls_gating (b : Builder) (ac : AutomationConfig) (p : Process)
    (hac : b.Build = Except.ok ac) (hp : p ∈ ac.processes) :
    p.args26.net.ssl =
      (if b.tlsCAFile ≠ "" ∧ b.tlsCertAndKeyFile ≠ "" ∧ b.tlsMode ≠ SSLModeDisabled
       then some { mode := b.tlsMode
                   caFile := b.tlsCAFile
                   pemKeyFile := b.tlsCertAndKeyFile
                   allowConnectionsWithoutCertificate := true }
       else none) := by
  obtain ⟨hprocs, -, -, -, -, -⟩ := build_ok_fields b ac hac
  rw [hprocs, derivedProcesses_eq] at hp
  obtain ⟨i, -, hpi⟩ := List.mem_map.mp hp
  rw [newProcess_processOpts] at hpi
  subst hpi
  by_cases htls : b.tlsCAFile ≠ "" ∧ b.tlsCertAndKeyFile ≠ "" ∧ b.tlsMode ≠ SSLModeDisabled
  · rw [if_pos htls]
    show (if b.isTLSEnabled = true then _ else _) = _
    rw [if_pos ((isTLSEnabled_iff b).mpr htls)]
  · rw [if_neg htls]
    show (if b.isTLSEnabled = true then _ else _) = _
    rw [if_neg (fun he => htls ((isTLSEnabled_iff b).mp he))]

/-- C3 witness: the first process of the TLS-enabled concrete build has
exactly the configured TLS block. -/
theorem build_tls_gating_witness :
    tlsP0.args26.net.ssl =
      (if tlsBuilder.tlsCAFile ≠ "" ∧ tlsBuilder.tlsCertAndKeyFile ≠ "" ∧
            tlsBuilder.tlsMode ≠ SSLModeDisabled
       then some { mode := tlsBuilder.tlsMode
                   caFile := tlsBuilder.tlsCAFile
                   pemKeyFile := tlsBuilder.tlsCertAndKeyFile
                   allowConnectionsWithoutCertificate := true }
       else none) :=
  build_tls_gating tlsBuilder tlsAC tlsP0 rfl (by decide)

/-- C4: for every member count N configured via `SetMembers`, the built
document has exactly N processes, a single replica set with exactly N
members whose ids are exactly 0..N-1 in order, and each member at index
i refers (via its host field) to the name of the process at index i. -/
theorem build_cardinality (b : Builder) (N : Nat) (ac : AutomationConfig)
    (hac : (b.SetMembers N).Build = Except.ok ac) :
    ac.processes.length = N ∧
    ac.replicaSets.map (fun rs => rs.members.map ReplicaSetMember.id) =
      [List.range N] ∧
    ac.replicaSets.map (fun rs => rs.members.map ReplicaSetMember.host) =
      [ac.processes.map Process.name] := by
  obtain ⟨hprocs, hrs, -, -, -, -⟩ := build_ok_fields (b.SetMembers N) ac hac
  refine ⟨?_, ?_, ?_⟩
  · rw [hprocs, derivedProcesses_eq, List.length_map, List.length_range]
    rfl
  · rw [hrs]
    simp only [List.map_cons, List.map_nil, List.cons.injEq, and_true]
    rw [derivedMembers_eq, List.map_map]
    simp only [newReplicaSetMember, Function.comp_def]
    show List.map (fun i => i) (List.range (b.SetMembers N).members) = _
    simp only [List.map_id_fun', id_eq]
    rfl
  · rw [hrs, hprocs]
    simp only [List.map_cons, List.map_nil, List.cons.injEq, and_true]
    rw [derivedMembers_eq, derivedProcesses_eq, List.map_map, List.map_map]
    rfl

/-- C4 witness: the concrete two-member build has two processes, member
ids [0, 1] and hosts matching the process names. -/
theorem build_cardinality_witness :
    testAC.processes.length = 2 ∧
    testAC.replicaSets.map (fun rs => rs.members.map ReplicaSetMember.id) =
      [List.range 2] ∧
    testAC.replicaSets.map (fun rs => rs.members.map ReplicaSetMember.host) =
      [testAC.processes.map Process.name] :=
  build_cardinality testBuilder 2 testAC rfl

/-- C6: at every index i below the member count, the i-th process has
fully-qualified hostname `<name>-<i>.<domain>` and process name
`<name>-<i>`. -/
theorem build_hostname_derivation (b : Builder) (ac : AutomationConfig) (i : Nat)
    (hac : b.Build = Except.ok ac) (hi : i < b.members) :
    (ac.processes.map Process.hostName)[i]? =
      some (b.name ++ "-" ++ toString i ++ "." ++ b.domain) ∧
    (ac.processes.map Process.name)[i]? = some (b.name ++ "-" ++ toString i) := by
  obtain ⟨hprocs, -, -, -, -, -⟩ := build_ok_fields b ac hac
  rw [hprocs, derivedProcesses_eq]
  constructor
  · rw [List.map_map, List.getElem?_map, List.getElem?_range hi]
    simp [Function.comp, newProcess_processOpts]
  · rw [List.map_map, List.getElem?_map, List.getElem?_range hi]
    simp [Function.comp, newProcess_processOpts, toHostName]

/-- C6 witness: in the concrete build with name "rs0" and domain
"svc.local", process 1 is named "rs0-1" with hostname
"rs0-1.svc.local". -/
theorem build_hostname_derivation_witness :
    (testAC.processes.map Process.hostName)[1]? =
      some (testBuilder.name ++ "-" ++ toString 1 ++ "." ++ testBuilder.domain) ∧
    (testAC.processes.map Process.name)[1]? =
      some (testBuilder.name ++ "-" ++ toString 1) :=
  build_hostname_derivation testBuilder testAC 1 rfl (by decide)

/-- C7: in every built document the client-certificate mode is the
literal "Optional", and the CA file path equals the configured CA file
exactly when TLS is fully enabled (all three conditions hold) and is
empty under any other combination. -/
theorem build_ssl_block (b : Builder) (ac : AutomationConfig)
    (hac : b.Build = Except.ok ac) :
    ac.ssl.clientCertificateMode = "Optional" ∧
    ac.ssl.caFilePath =
      (if b.tlsCAFile ≠ "" ∧ b.tlsCertAndKeyFile ≠ "" ∧ b.tlsMode ≠ SSLModeDisabled
       then b.tlsCAFile else "") := by
  obtain ⟨-, -, -, -, -, hssl⟩ := build_ok_fields b ac hac
  rw [hssl]
  refine ⟨rfl, ?_⟩
  by_cases htls : b.tlsCAFile ≠ "" ∧ b.tlsCertAndKeyFile ≠ "" ∧ b.tlsMode ≠ SSLModeDisabled
  · rw [if_pos htls]
    show (if b.isTLSEnabled = true then _ else _) = _
    rw [if_pos ((isTLSEnabled_iff b).mpr htls)]
  · rw [if_neg htls]
    show (if b.isTLSEnabled = true then _ else _) = _
    rw [if_neg (fun he => htls ((isTLSEnabled_iff b).mp he))]

/-- C7 witness: the TLS-enabled concrete build carries CA path "/ca.pem"
and mode "Optional". -/
theorem build_ssl_block_witness :
    tlsAC.ssl.clientCertificateMode = "Optional" ∧
    tlsAC.ssl.caFilePath =
      (if tlsBuilder.tlsCAFile ≠ "" ∧ tlsBuilder.tlsCertAndKeyFile ≠ "" ∧
            tlsBuilder.tlsMode ≠ SSLModeDisabled
       then tlsBuilder.tlsCAFile else "") :=
  build_ssl_block tlsBuilder tlsAC rfl

/-- C9: every built document (member count 0 included) contains exactly
one replica set, with id equal to the configured name, the derived
member list, and protocol version the literal string "1". -/
theorem build_single_replicaset (b : Builder) (ac : AutomationConfig)
    (hac : b.Build = Except.ok ac) :
    ac.replicaSets =
      [{ id := b.name, members := b.derivedMembers, protocolVersion := "1" }] :=
  (build_ok_fields b ac hac).2.1

/-- C9 witness: the concrete zero-member build still has its single
replica set, with an empty member list. -/
theorem build_single_replicaset_witness :
    (((testBuilder.SetMembers 0).Build).toOption.getD emptyAC).replicaSets =
      [{ id := (testBuilder.SetMembers 0).name
         members := (testBuilder.SetMembers 0).derivedMembers
         protocolVersion := "1" }] :=
  build_single_replicaset (testBuilder.SetMembers 0)
    (((testBuilder.SetMembers 0).Build).toOption.getD emptyAC) rfl

/-- One build variant carries a present (non-null) module list. -/
def modulesPresentEntry (v : MongoDbVersionConfig) : Bool :=
  v.builds.all (fun bv => bv.modules.isSome)

/-- Every catalog entry of the list carries only present (non-null)
module lists. -/
def modulesPresent (vs : List MongoDbVersionConfig) : Bool :=
  vs.all modulesPresentEntry

/-- Normalization of a single build variant by `AddVersion`: its stored
module list is the original one with nil replaced by the empty list. -/
theorem addVersion_variant_modules (bv : BuildVariant) :
    (match bv.modules with
     | none => { bv with modules := some [] }
     | some _ => bv).modules = some (bv.modules.getD []) := by
  cases bv with
  | mk m => cases m <;> rfl

/-- `AddVersion` keeps the catalog free of null module lists. -/
theorem addVersion_preserves_modulesPresent (b : Builder) (v : MongoDbVersionConfig)
    (h : modulesPresent b.versions = true) :
    modulesPresent (b.AddVersion v).versions = true := by
  unfold modulesPresent Builder.AddVersion
  rw [List.all_append]
  unfold modulesPresent at h
  rw [h]
  simp only [Bool.true_and, List.all_cons, List.all_nil, Bool.and_true]
  unfold modulesPresentEntry
  simp only [List.all_map, List.all_eq_true]
  intro bv _
  show ((match bv.modules with
        | none => { bv with modules := some [] }
        | some _ => bv).modules).isSome = true
  rw [addVersion_variant_modules]
  rfl

/-- Any chain of `AddVersion` calls keeps the catalog free of null
module lists. -/
theorem foldl_addVersion_modulesPresent (raws : List MongoDbVersionConfig) (b : Builder)
    (h : modulesPresent b.versions = true) :
    modulesPresent ((raws.foldl Builder.AddVersion b).versions) = true := by
  induction raws generalizing b with
  | nil => exact h
  | cons v t ih => exact ih _ (addVersion_preserves_modulesPresent b v h)

/-- C8: `AddVersion` stores every catalog entry with each unset (nil)
module list replaced by an empty list — the stored entry carries exactly
`some (modules.getD [])` per variant — and consequently every document
built from a catalog accumulated through `AddVersion` (on top of a
nil-free starting catalog, e.g. the empty one) carries only non-null,
possibly empty, module lists. -/
theorem addVersion_module_normalization (b0 : Builder) (v : MongoDbVersionConfig)
    (raws : List MongoDbVersionConfig) (ac : AutomationConfig)
    (h0 : modulesPresent b0.versions = true)
    (hac : (raws.foldl Builder.AddVersion b0).Build = Except.ok ac) :
    ((b0.AddVersion v).versions.map (fun e => e.builds.map (fun bv => bv.modules))) =
      (b0.versions.map (fun e => e.builds.map (fun bv => bv.modules))) ++
        [v.builds.map (fun bv => some (bv.modules.getD []))] ∧
    modulesPresent ac.versions = true := by
  constructor
  · unfold Builder.AddVersion
    rw [List.map_append]
    simp only [List.map_cons, List.map_nil, List.map_map, List.append_cancel_left_eq,
      List.cons.injEq, and_true]
    exact List.map_congr_left (fun bv _ => addVersion_variant_modules bv)
  · obtain ⟨-, -, hvers, -, -, -⟩ := build_ok_fields _ ac hac
    rw [hvers]
    exact foldl_addVersion_modulesPresent raws b0 h0

/-- A concrete catalog entry with one nil module list and one explicit
module list. -/
def rawEntry : MongoDbVersionConfig :=
  { name := "4.2.0", builds := [{ modules := none }, { modules := some ["enterprise"] }] }

/-- The document built after adding `rawEntry` to the catalog of
`testBuilder`. -/
def catalogAC : AutomationConfig :=
  (([rawEntry].foldl Builder.AddVersion testBuilder).Build).toOption.getD emptyAC

/-- C8 witness: adding the concrete entry stores `some []` for the nil
variant, and the catalog of the built document has no null module list. -/
theorem addVersion_module_normalization_witness :
    ((testBuilder.AddVersion rawEntry).versions.map
        (fun e => e.builds.map (fun bv => bv.modules))) =
      (testBuilder.versions.map (fun e => e.builds.map (fun bv => bv.modules))) ++
        [rawEntry.builds.map (fun bv => some (bv.modules.getD []))] ∧
    modulesPresent catalogAC.versions = true :=
  addVersion_module_normalization testBuilder rawEntry [rawEntry] catalogAC (by decide) rfl

/-- C10: the previous document influences a successful Build only
through the version counter — for one builder state (hence one enabler
result) and two arbitrary previous documents, the two built documents
agree on every field except possibly the version. -/
theorem build_previous_only_version (b : Builder) (p1 p2 : AutomationConfig)
    (y1 y2 : AutomationConfig)
    (h1 : (b.SetPreviousAutomationConfig p1).Build = Except.ok y1)
    (h2 : (b.SetPreviousAutomationConfig p2).Build = Except.ok y2) :
    y1.processes = y2.processes ∧ y1.replicaSets = y2.replicaSets ∧
    y1.versions = y2.versions ∧ y1.options = y2.options ∧
    y1.auth = y2.auth ∧ y1.ssl = y2.ssl := by
  obtain ⟨ha1, hb1, hc1, hd1, ⟨a1, he1, hf1⟩, hg1⟩ := build_ok_fields _ y1 h1
  obtain ⟨ha2, hb2, hc2, hd2, ⟨a2, he2, hf2⟩, hg2⟩ := build_ok_fields _ y2 h2
  have hee : (Except.ok a1 : Except String Auth) = Except.ok a2 := by
    have he1b : b.enabler DisabledAuth = Except.ok a1 := he1
    have he2b : b.enabler DisabledAuth = Except.ok a2 := he2
    exact he1b.symm.trans he2b
  cases hee
  rw [ha1, ha2, hb1, hb2, hc1, hc2, hd1, hd2, hf1, hf2, hg1, hg2]
  exact ⟨rfl, rfl, rfl, rfl, rfl, rfl⟩

/-- The previous document of the second concrete C10 run: a different
version and a different auth sub-document. -/
def altPrevAC : AutomationConfig := { emptyAC with version := 41, auth := "scram" }

/-- The C10 concrete build against the empty previous document. -/
def c10FirstAC : AutomationConfig :=
  ((testBuilder.SetPreviousAutomationConfig emptyAC).Build).toOption.getD emptyAC

/-- The C10 concrete build against `altPrevAC`. -/
def c10SecondAC : AutomationConfig :=
  ((testBuilder.SetPreviousAutomationConfig altPrevAC).Build).toOption.getD emptyAC

/-- C10 witness: the two concrete builds differing only in the previous
document agree on every field but the version. -/
theorem build_previous_only_version_witness :
    c10FirstAC.processes = c10SecondAC.processes ∧
    c10FirstAC.replicaSets = c10SecondAC.replicaSets ∧
    c10FirstAC.versions = c10SecondAC.versions ∧
    c10FirstAC.options = c10SecondAC.options ∧
    c10FirstAC.auth = c10SecondAC.auth ∧
    c10FirstAC.ssl = c10SecondAC.ssl :=
  build_previous_only_version testBuilder emptyAC altPrevAC c10FirstAC c10SecondAC rfl rfl

end AutomationConfigModel
